import Mathlib

/-
  Verification of the queue / worker / notification kernel of the
  Scalable-Real-Time-Microservices-Platform repository.

  The definitions below are a shallow embedding of the JavaScript source:
    * queue/producer.js        (src/unnamed/part_000, addTaskToQueue, taskQueue options)
    * routes/tasks.js          (src/unnamed/part_001, validateTask and the POST route)
    * worker-service/worker.js (worker processor and event publication)
    * worker-service/processors/taskProcessor.js (processTask and the handlers)
    * notification-service/pubsub/subscriber.js  (message routing and fan-out)
-/

namespace Platform

/-- JavaScript truthiness for an optional string field: `undefined`, `null`
and the empty string are falsy, every other string is truthy. -/
def jsTruthy : Option String → Bool
  | none => false
  | some s => !(s == "")

/-- JavaScript `v || d` on an optional string field: falsy values (absent or
empty string) are replaced by the default `d`.  Used by the POST /api/tasks
route for `req.body.userId || "anonymous"`. -/
def jsOrDefault (v : Option String) (d : String) : String :=
  match v with
  | none => d
  | some s => if s == "" then d else s

/-! ## Producer (queue/producer.js) -/

/-- Argument of `addTaskToQueue`: the task data assembled by the POST route.
The `priority` field may be absent; `addTaskToQueue` destructures it with
default 5. -/
structure TaskData where
  type : String
  priority : Option Int
  userId : Option String
deriving Repr, DecidableEq

/-- A job admitted to the BullMQ queue: its job name, its stored data
(`userId`), the priority value handed to BullMQ in the job options, and the
insertion sequence number (used by BullMQ as FIFO tie-break). -/
structure EnqueuedJob where
  name : String
  userId : Option String
  bullPriority : Int
  seq : Nat
deriving Repr, DecidableEq

/-- Embedding of `addTaskToQueue` (queue/producer.js): destructures
`{ type, data, priority = 5, userId }` and adds the job with option
`priority: 10 - priority` (the source comment reads
"BullMQ: lower number = higher priority"). -/
def addTaskToQueue (td : TaskData) (seq : Nat) : EnqueuedJob :=
  { name := td.type
    userId := td.userId
    bullPriority := 10 - td.priority.getD 5
    seq := seq }

/-- Modelled from the spec: the dispatcher (BullMQ library code, not part of
the repository sources) selects among queued jobs the one with the lowest
numeric priority value handed to it, with the earliest insertion sequence as
tie-break (spec section 4.3: a priority queue keyed on (priority, sequence)).
`dispatchesNoLaterThan a b` states that job `a` is dispatched no later than
job `b` when both are eligible and slots are equally available. -/
def dispatchesNoLaterThan (a b : EnqueuedJob) : Prop :=
  a.bullPriority < b.bullPriority ∨ (a.bullPriority = b.bullPriority ∧ a.seq ≤ b.seq)

instance (a b : EnqueuedJob) : Decidable (dispatchesNoLaterThan a b) := by
  unfold dispatchesNoLaterThan
  exact inferInstance

/-! ## Queue configuration (queue/producer.js, taskQueue defaultJobOptions) -/

/-- Backoff settings of the queue: the literal object
`{ type: "exponential", delay: 2000 }`. -/
structure BackoffSettings where
  btype : String
  delay : Nat
deriving Repr, DecidableEq

/-- Retention settings `{ count, age }` for completed and failed jobs. -/
structure RemovalPolicy where
  count : Nat
  age : Nat
deriving Repr, DecidableEq

/-- The `defaultJobOptions` object passed to the `tasks` queue constructor. -/
structure JobOptions where
  attempts : Nat
  backoff : BackoffSettings
  removeOnComplete : RemovalPolicy
  removeOnFail : RemovalPolicy
deriving Repr, DecidableEq

/-- Embedding of the `defaultJobOptions` literal in queue/producer.js:
3 attempts, exponential backoff with base delay 2000 ms, retention
1000 jobs / 24 h for completed and 5000 jobs / 7 days for failed.
No maximum-delay cap appears anywhere in the options. -/
def defaultJobOptions : JobOptions :=
  { attempts := 3
    backoff := { btype := "exponential", delay := 2000 }
    removeOnComplete := { count := 1000, age := 24 * 3600 }
    removeOnFail := { count := 5000, age := 7 * 24 * 3600 } }

/-- Modelled from the spec: the backoff computation itself is BullMQ library
code, absent from the repository sources; the spec states
"delay = baseDelay * 2^(attemptsMade)".  `backoffDelay base n` is the delay
scheduled after the n-th failed attempt. -/
def backoffDelay (base : Nat) (attemptsMade : Nat) : Nat :=
  base * 2 ^ attemptsMade

/-! ## Claim C1 -/

/-- C1 counterexample: the claim states that a job with the lower
user-supplied priority value is dispatched no later (lower value = higher
precedence).  With user priorities 1 < 2 the producer hands BullMQ the
values 10 - 1 = 9 and 10 - 2 = 8, so the priority-2 job is dispatched
strictly first: the claim fails at this concrete input. -/
theorem C1_lower_value_first_refuted :
    ¬ dispatchesNoLaterThan
        (addTaskToQueue { type := "email", priority := some 1, userId := none } 0)
        (addTaskToQueue { type := "email", priority := some 2, userId := none } 1) := by
  decide

/-- C1 (amended): the producer hands BullMQ `10 - priority`, so a job with a
strictly HIGHER user-supplied priority value is dispatched no later than one
with a lower value, and among equal user priorities insertion order (FIFO)
decides. -/
theorem C1_higher_user_priority_dispatches_no_later
    (t1 t2 : String) (u1 u2 : Option String) (p1 p2 : Int) (s1 s2 : Nat) :
    (p1 > p2 →
      dispatchesNoLaterThan
        (addTaskToQueue { type := t1, priority := some p1, userId := u1 } s1)
        (addTaskToQueue { type := t2, priority := some p2, userId := u2 } s2)) ∧
    (p1 = p2 → s1 ≤ s2 →
      dispatchesNoLaterThan
        (addTaskToQueue { type := t1, priority := some p1, userId := u1 } s1)
        (addTaskToQueue { type := t2, priority := some p2, userId := u2 } s2)) := by
  constructor
  · intro hp
    left
    simp only [addTaskToQueue, Option.getD]
    omega
  · intro hp hs
    right
    constructor
    · simp only [addTaskToQueue, Option.getD]
      omega
    · exact hs

/-- C1 witness: at user priorities 7 > 3 the priority-7 job is dispatched no
later, and at equal priorities the earlier-enqueued job wins. -/
theorem C1_higher_user_priority_witness :
    dispatchesNoLaterThan
      (addTaskToQueue { type := "email", priority := some 7, userId := none } 0)
      (addTaskToQueue { type := "report", priority := some 3, userId := none } 1) ∧
    dispatchesNoLaterThan
      (addTaskToQueue { type := "email", priority := some 4, userId := none } 2)
      (addTaskToQueue { type := "email", priority := some 4, userId := none } 5) :=
  ⟨(C1_higher_user_priority_dispatches_no_later "email" "report" none none 7 3 0 1).1
      (by decide),
   (C1_higher_user_priority_dispatches_no_later "email" "email" none none 4 4 2 5).2
      (by decide) (by decide)⟩

/-! ## Claim C8 -/

/-- C8 counterexample: the claim asserts a configured cap on the maximum
retry delay.  No such cap exists in `defaultJobOptions`, and the delay
sequence determined by the configured base (2000 ms, exponential) is
unbounded in the attempt count. -/
theorem C8_no_delay_cap :
    ¬ ∃ C : Nat, ∀ n : Nat, backoffDelay defaultJobOptions.backoff.delay n ≤ C := by
  rintro ⟨C, hC⟩
  have h1 := hC C
  have h2 : C < 2 ^ C := Nat.lt_two_pow C
  have h3 : 2 ^ C ≤ 2000 * 2 ^ C := Nat.le_mul_of_pos_left _ (by norm_num)
  have h4 : backoffDelay defaultJobOptions.backoff.delay C = 2000 * 2 ^ C := rfl
  omega

/-- C8 (amended): the configured backoff is exponential with base delay
2000 ms, giving delay = 2000 * 2^(attemptsMade), monotone in the attempt
count; no maximum-delay cap is configured — growth is limited in practice
only because `attempts` is capped at 3. -/
theorem C8_exponential_backoff_uncapped :
    defaultJobOptions.backoff = { btype := "exponential", delay := 2000 } ∧
    defaultJobOptions.attempts = 3 ∧
    (∀ n : Nat, backoffDelay defaultJobOptions.backoff.delay n = 2000 * 2 ^ n) ∧
    (∀ m n : Nat, m ≤ n →
      backoffDelay defaultJobOptions.backoff.delay m ≤
        backoffDelay defaultJobOptions.backoff.delay n) := by
  refine ⟨rfl, rfl, fun n => rfl, fun m n hmn => ?_⟩
  exact Nat.mul_le_mul_left 2000 (Nat.pow_le_pow_right (by norm_num) hmn)

/-- C8 witness: the delay after the second failed attempt (8000 ms) is at
least the delay after the first (4000 ms). -/
theorem C8_exponential_backoff_witness :
    backoffDelay defaultJobOptions.backoff.delay 1 ≤
      backoffDelay defaultJobOptions.backoff.delay 2 :=
  C8_exponential_backoff_uncapped.2.2.2 1 2 (by decide)

/-! ## Task processor (worker-service/processors/taskProcessor.js) -/

/-- The task types that have a dedicated handler in the processor switch. -/
def registeredTaskTypes : List String :=
  ["email", "report", "dataProcessing", "imageProcessing"]

/-- Outcome of processing one task: the handlers return a result object whose
`status` field we keep; a failure would carry a reason string. -/
inductive TaskOutcome where
  | completed (status : String)
  | failed (reason : String)
deriving Repr, DecidableEq

/-- Embedding of `processTask` (taskProcessor.js): a switch on the job name.
Each registered handler resolves with a result object (status "sent",
"generated", "processed", "processed" respectively); the `default` branch
processes the job as a "generic task" and resolves with status "completed".
No branch rejects, so every task name yields a successful completion. -/
def processTask (name : String) : TaskOutcome :=
  if name = "email" then .completed "sent"
  else if name = "report" then .completed "generated"
  else if name = "dataProcessing" then .completed "processed"
  else if name = "imageProcessing" then .completed "processed"
  else .completed "completed"

/-! ## Worker (worker-service/worker.js) -/

/-- The slice of a BullMQ job visible to the worker processor: id, name,
stored userId, the attempts already made, and the configured attempt cap. -/
structure WorkerJob where
  id : String
  name : String
  userId : Option String
  attemptsMade : Nat
  maxAttempts : Nat
deriving Repr, DecidableEq

/-- An event published to Redis Pub/Sub by `publishTaskEvent`. -/
structure PublishedEvent where
  channel : String
  jobId : String
  taskType : String
  userId : Option String
  error : Option String
  attemptsMade : Option Nat
deriving Repr, DecidableEq

/-- The `task:completed` event the worker publishes on handler success. -/
def workerCompletedEvent (j : WorkerJob) : PublishedEvent :=
  { channel := "task:completed"
    jobId := j.id
    taskType := j.name
    userId := j.userId
    error := none
    attemptsMade := none }

/-- The `task:failed` event the worker publishes in its catch block, carrying
`attemptsMade: job.attemptsMade + 1`. -/
def workerFailedEvent (j : WorkerJob) (errMsg : String) : PublishedEvent :=
  { channel := "task:failed"
    jobId := j.id
    taskType := j.name
    userId := j.userId
    error := some errMsg
    attemptsMade := some (j.attemptsMade + 1) }

/-- Embedding of the worker processor body (worker.js lines 57-107): on
handler success it publishes exactly one `task:completed` event; on handler
error the catch block publishes exactly one `task:failed` event — with no
test of whether retry attempts remain — and then re-throws for the BullMQ
retry logic. -/
def workerAttemptEvents (j : WorkerJob) (handlerOutcome : Except String String) :
    List PublishedEvent :=
  match handlerOutcome with
  | .ok _ => [workerCompletedEvent j]
  | .error e => [workerFailedEvent j e]

/-! ## Claim C2 -/

/-- C2 counterexample: "pdfExport" has no registered handler, yet
`processTask` runs it through the generic default branch and completes it
successfully; it is not marked failed with reason "unknown task type". -/
theorem C2_unknown_type_not_failed :
    "pdfExport" ∉ registeredTaskTypes ∧
    processTask "pdfExport" = .completed "completed" ∧
    processTask "pdfExport" ≠ .failed "unknown task type" := by
  refine ⟨by decide, ?_, ?_⟩ <;> simp [processTask]

/-- C2 (amended): every job whose type has no registered handler is processed
by the generic default branch and completes successfully with status
"completed"; it is never marked failed and never silently dropped. -/
theorem C2_unknown_type_generic_completion (name : String)
    (h : name ∉ registeredTaskTypes) :
    processTask name = .completed "completed" := by
  simp only [registeredTaskTypes, List.mem_cons, List.not_mem_nil, or_false] at h
  push_neg at h
  obtain ⟨h1, h2, h3, h4⟩ := h
  simp [processTask, h1, h2, h3, h4]

/-- C2 witness: the unregistered type "cleanup" completes with status
"completed". -/
theorem C2_unknown_type_witness :
    processTask "cleanup" = .completed "completed" :=
  C2_unknown_type_generic_completion "cleanup" (by decide)

/-! ## Claim C3 -/

/-- C3 counterexample: a first-attempt handler error on a job with
`maxAttempts = 3` still has retry attempts remaining (1 < 3), yet the worker
publishes a `task:failed` event for that attempt — the claim says no
terminal event is published while attempts remain. -/
theorem C3_failed_event_despite_retries :
    let j : WorkerJob :=
      { id := "job-1", name := "email", userId := some "alice"
        attemptsMade := 0, maxAttempts := 3 }
    j.attemptsMade + 1 < j.maxAttempts ∧
    (workerAttemptEvents j (.error "boom")).any
      (fun e => e.channel == "task:failed") = true := by
  decide

/-- C3 (amended): on every handler error the worker publishes exactly one
`task:failed` event, carrying `attemptsMade + 1`, regardless of whether retry
attempts remain (the error is still re-thrown so BullMQ retries the job when
attempts remain); on handler success it publishes exactly one
`task:completed` event and no failure event. -/
theorem C3_failed_event_every_error (j : WorkerJob) (e r : String) :
    workerAttemptEvents j (.error e) = [workerFailedEvent j e] ∧
    (workerFailedEvent j e).channel = "task:failed" ∧
    (workerFailedEvent j e).attemptsMade = some (j.attemptsMade + 1) ∧
    workerAttemptEvents j (.ok r) = [workerCompletedEvent j] ∧
    (workerCompletedEvent j).channel = "task:completed" :=
  ⟨rfl, rfl, rfl, rfl, rfl⟩

/-- C3 witness: a concrete first-attempt error publishes exactly the
task:failed event with attemptsMade = 1. -/
theorem C3_failed_event_witness :
    workerAttemptEvents
      { id := "job-1", name := "email", userId := some "alice"
        attemptsMade := 0, maxAttempts := 3 } (.error "boom") =
      [workerFailedEvent
        { id := "job-1", name := "email", userId := some "alice"
          attemptsMade := 0, maxAttempts := 3 } "boom"] :=
  (C3_failed_event_every_error
    { id := "job-1", name := "email", userId := some "alice"
      attemptsMade := 0, maxAttempts := 3 } "boom" "ok").1

/-! ## Notification router (notification-service/pubsub/subscriber.js) -/

/-- Delivery target of a Socket.io emit: a named room (`io.to(room).emit`)
or every connected client (`io.emit`). -/
inductive Target where
  | room (name : String)
  | all
deriving Repr, DecidableEq

/-- One emit performed by a subscriber handler: to which target, on which
Socket.io channel. -/
structure Emission where
  target : Target
  channel : String
deriving Repr, DecidableEq

/-- The parsed message fields the subscriber handlers inspect when deciding
delivery. -/
structure EventData where
  jobId : String
  taskType : String
  userId : Option String
deriving Repr, DecidableEq

/-- The event data the subscriber sees for an event published by the
worker. -/
def toEventData (e : PublishedEvent) : EventData :=
  { jobId := e.jobId, taskType := e.taskType, userId := e.userId }

/-- Embedding of the guard `data.userId && data.userId !== "anonymous"` used
by the three task handlers: a user room is targeted exactly when `userId` is
present, truthy (non-empty) and not the anonymous sentinel; the result is
the room owner. -/
def userRoomTarget (userId : Option String) : Option String :=
  match userId with
  | none => none
  | some s => if s = "" then none else if s = "anonymous" then none else some s

/-- Embedding of `handleTaskCompleted`: when the guard holds, emit the
notification on both the generic `notification` channel and the specific
`task:completed` channel to the room `user:<userId>`; otherwise broadcast
on the `notification` channel only. -/
def handleTaskCompleted (d : EventData) : List Emission :=
  match userRoomTarget d.userId with
  | some s =>
    [ { target := .room ("user:" ++ s), channel := "notification" },
      { target := .room ("user:" ++ s), channel := "task:completed" } ]
  | none => [ { target := .all, channel := "notification" } ]

/-- Embedding of `handleTaskFailed`: identical routing, with the specific
channel `task:failed`. -/
def handleTaskFailed (d : EventData) : List Emission :=
  match userRoomTarget d.userId with
  | some s =>
    [ { target := .room ("user:" ++ s), channel := "notification" },
      { target := .room ("user:" ++ s), channel := "task:failed" } ]
  | none => [ { target := .all, channel := "notification" } ]

/-- Embedding of `handleTaskStarted`: when the guard holds, emit on the
generic `notification` channel only; otherwise emit nothing at all (there is
no broadcast branch). -/
def handleTaskStarted (d : EventData) : List Emission :=
  match userRoomTarget d.userId with
  | some s => [ { target := .room ("user:" ++ s), channel := "notification" } ]
  | none => []

/-- Embedding of `handleSystemBroadcast`: emit to every connected client on
both the `notification` and the `system:broadcast` channel, ignoring any
recipient field. -/
def handleSystemBroadcast (_d : EventData) : List Emission :=
  [ { target := .all, channel := "notification" },
    { target := .all, channel := "system:broadcast" } ]

/-! ## Claim C4 -/

/-- C4 counterexample: an event whose `userId` is the empty string has a
present userId different from "anonymous", yet `handleTaskCompleted`
broadcasts it to all clients instead of targeting the user room: the
JavaScript truthiness guard treats the empty string as absent. -/
theorem C4_empty_userId_broadcast :
    let d : EventData := { jobId := "job-1", taskType := "email", userId := some "" }
    d.userId ≠ none ∧ d.userId ≠ some "anonymous" ∧
    handleTaskCompleted d = [ { target := .all, channel := "notification" } ] ∧
    ∀ em ∈ handleTaskCompleted d, em.target = Target.all := by
  decide

/-- C4 (amended): for `task:completed` and `task:failed` events whose userId
is present, non-empty and not "anonymous", every emission goes to the room
`user:<userId>` and none is broadcast; when the userId is absent, empty or
"anonymous", the notification is broadcast to all connected clients; and
`handleSystemBroadcast` always delivers to all clients regardless of the
recipient field. -/
theorem C4_notification_targeting (d : EventData) (s : String) :
    (d.userId = some s → s ≠ "" → s ≠ "anonymous" →
      (∀ em ∈ handleTaskCompleted d, em.target = Target.room ("user:" ++ s)) ∧
      (∀ em ∈ handleTaskFailed d, em.target = Target.room ("user:" ++ s)) ∧
      handleTaskCompleted d ≠ [] ∧ handleTaskFailed d ≠ []) ∧
    ((d.userId = none ∨ d.userId = some "" ∨ d.userId = some "anonymous") →
      handleTaskCompleted d = [ { target := .all, channel := "notification" } ] ∧
      handleTaskFailed d = [ { target := .all, channel := "notification" } ]) ∧
    (∀ em ∈ handleSystemBroadcast d, em.target = Target.all) := by
  refine ⟨?_, ?_, ?_⟩
  · intro hu hne hna
    have ht : userRoomTarget d.userId = some s := by
      simp [userRoomTarget, hu, hne, hna]
    refine ⟨?_, ?_, ?_, ?_⟩ <;>
      simp [handleTaskCompleted, handleTaskFailed, ht]
  · intro hcase
    have ht : userRoomTarget d.userId = none := by
      rcases hcase with h | h | h <;> simp [userRoomTarget, h]
    exact ⟨by simp [handleTaskCompleted, ht], by simp [handleTaskFailed, ht]⟩
  · intro em hem
    simp [handleSystemBroadcast] at hem
    rcases hem with h | h <;> simp [h]

/-- C4 witness: a completed event for user "alice" is targeted at the room
`user:alice`, an anonymous one is broadcast, and a system broadcast reaches
all clients. -/
theorem C4_notification_targeting_witness :
    (∀ em ∈ handleTaskCompleted { jobId := "j", taskType := "email", userId := some "alice" },
        em.target = Target.room "user:alice") ∧
    handleTaskCompleted { jobId := "j", taskType := "email", userId := some "anonymous" } =
      [ { target := .all, channel := "notification" } ] ∧
    (∀ em ∈ handleSystemBroadcast { jobId := "j", taskType := "email", userId := none },
        em.target = Target.all) :=
  ⟨((C4_notification_targeting
        { jobId := "j", taskType := "email", userId := some "alice" } "alice").1
      rfl (by decide) (by decide)).1,
   ((C4_notification_targeting
        { jobId := "j", taskType := "email", userId := some "anonymous" } "alice").2.1
      (Or.inr (Or.inr rfl))).1,
   (C4_notification_targeting
        { jobId := "j", taskType := "email", userId := none } "alice").2.2⟩

/-! ## Claim C5 -/

/-- C5 counterexample: a targeted `task:started` delivery emits only the
generic `notification` channel — the specific `task:started` channel is
never emitted, contradicting the claim that every delivered lifecycle event
is emitted on both channels. -/
theorem C5_started_lacks_specific_channel :
    let d : EventData := { jobId := "job-1", taskType := "email", userId := some "alice" }
    handleTaskStarted d = [ { target := .room "user:alice", channel := "notification" } ] ∧
    (∀ em ∈ handleTaskStarted d, em.channel ≠ "task:started") := by
  decide

/-- C5 (amended): only targeted `task:completed` and `task:failed`
deliveries (and `system:broadcast`) emit both the generic `notification`
channel and the specific event channel; broadcast completed/failed
deliveries emit only `notification`, targeted `task:started` deliveries emit
only `notification`, and `task:started` with an absent or anonymous userId
emits nothing. -/
theorem C5_channel_fanout (d : EventData) (s : String) :
    (d.userId = some s → s ≠ "" → s ≠ "anonymous" →
      (handleTaskCompleted d).map Emission.channel = ["notification", "task:completed"] ∧
      (handleTaskFailed d).map Emission.channel = ["notification", "task:failed"] ∧
      (handleTaskStarted d).map Emission.channel = ["notification"]) ∧
    ((d.userId = none ∨ d.userId = some "" ∨ d.userId = some "anonymous") →
      (handleTaskCompleted d).map Emission.channel = ["notification"] ∧
      (handleTaskFailed d).map Emission.channel = ["notification"] ∧
      handleTaskStarted d = []) ∧
    (handleSystemBroadcast d).map Emission.channel = ["notification", "system:broadcast"] := by
  refine ⟨?_, ?_, rfl⟩
  · intro hu hne hna
    have ht : userRoomTarget d.userId = some s := by
      simp [userRoomTarget, hu, hne, hna]
    refine ⟨?_, ?_, ?_⟩ <;>
      simp [handleTaskCompleted, handleTaskFailed, handleTaskStarted, ht]
  · intro hcase
    have ht : userRoomTarget d.userId = none := by
      rcases hcase with h | h | h <;> simp [userRoomTarget, h]
    refine ⟨?_, ?_, ?_⟩ <;>
      simp [handleTaskCompleted, handleTaskFailed, handleTaskStarted, ht]

/-- C5 witness: for user "bob" the completed event is emitted on the generic
and the specific channel, while an anonymous started event emits nothing. -/
theorem C5_channel_fanout_witness :
    (handleTaskCompleted { jobId := "j", taskType := "email", userId := some "bob" }).map
        Emission.channel = ["notification", "task:completed"] ∧
    handleTaskStarted { jobId := "j", taskType := "email", userId := some "anonymous" } = [] :=
  ⟨((C5_channel_fanout
        { jobId := "j", taskType := "email", userId := some "bob" } "bob").1
      rfl (by decide) (by decide)).1,
   ((C5_channel_fanout
        { jobId := "j", taskType := "email", userId := some "anonymous" } "bob").2.1
      (Or.inr (Or.inr rfl))).2.2⟩

/-! ## Subscriber message loop (subscriber.js, initializeRedisSubscriber) -/

/-- Result of the per-message listener: either the message was parsed and
routed (producing a list of emissions), or the try/catch caught an error —
the error is logged and the message dropped. -/
inductive MessageResult where
  | handled (emissions : List Emission)
  | dropped (error : String)
deriving Repr, DecidableEq

/-- Embedding of the channel switch inside the message listener: the four
subscribed channels dispatch to their handler; an unknown channel is only
warned about and produces no emission. -/
def routeMessage (channel : String) (d : EventData) : List Emission :=
  if channel = "task:completed" then handleTaskCompleted d
  else if channel = "task:failed" then handleTaskFailed d
  else if channel = "task:started" then handleTaskStarted d
  else if channel = "system:broadcast" then handleSystemBroadcast d
  else []

/-- Embedding of the message listener body (subscriber.js lines 52-86). The
whole body runs inside try/catch; `parse` abstracts the fallible prefix of
the body (JSON.parse of the raw message, and any property access that would
throw on a malformed value). A caught error is logged and the message
dropped; a parsed message is routed by channel. The listener itself never
throws. -/
def onMessage (parse : String → Except String EventData)
    (channel message : String) : MessageResult :=
  match parse message with
  | .error e => .dropped e
  | .ok d => .handled (routeMessage channel d)

/-- The subscriber event loop: each incoming `(channel, message)` pair is
handed to the listener in order; because the listener is total, every
message yields exactly one result and the loop never aborts. -/
def subscriberRun (parse : String → Except String EventData) :
    List (String × String) → List MessageResult
  | [] => []
  | m :: rest => onMessage parse m.1 m.2 :: subscriberRun parse rest

/-! ## Claim C7 -/

/-- C7: a malformed message body is caught, logged (the dropped result
carries the error) and dropped, and the processing of all subsequent
messages — on any channel — is exactly what it would have been had the
malformed message never arrived; moreover the loop never loses or crashes
on a message: it produces one result per incoming message. -/
theorem C7_malformed_message_dropped
    (parse : String → Except String EventData) (c bad e : String)
    (hbad : parse bad = .error e) (rest : List (String × String)) :
    onMessage parse c bad = .dropped e ∧
    subscriberRun parse ((c, bad) :: rest) = .dropped e :: subscriberRun parse rest ∧
    (∀ msgs : List (String × String), (subscriberRun parse msgs).length = msgs.length) := by
  have h1 : onMessage parse c bad = .dropped e := by
    simp [onMessage, hbad]
  refine ⟨h1, by simp [subscriberRun, h1], ?_⟩
  intro msgs
  induction msgs with
  | nil => rfl
  | cons m rest ih => simp [subscriberRun, ih]

/-- C7 witness: with a parser that rejects everything except the literal
"good", a malformed body on `task:completed` is dropped and the following
well-formed message is still handled. -/
theorem C7_malformed_message_witness :
    let parse : String → Except String EventData := fun s =>
      if s = "good" then .ok { jobId := "j", taskType := "email", userId := none }
      else .error "SyntaxError"
    onMessage parse "task:completed" "not json" = .dropped "SyntaxError" ∧
    subscriberRun parse [("task:completed", "not json"), ("task:failed", "good")] =
      [.dropped "SyntaxError",
       .handled [ { target := .all, channel := "notification" } ]] := by
  intro parse
  have h := C7_malformed_message_dropped parse "task:completed" "not json" "SyntaxError"
    (by simp [parse]) [("task:failed", "good")]
  refine ⟨h.1, ?_⟩
  rw [h.2.1]
  rfl

/-! ## Task creation route (routes/tasks.js) -/

/-- The request body of POST /api/tasks as the validators see it: the type
tag, whether `data` is an object, the optional integer priority, and the
optional userId. -/
structure TaskRequestBody where
  type : String
  dataIsObject : Bool
  priority : Option Int
  userId : Option String
deriving Repr, DecidableEq

/-- Embedding of the `validateTask` middleware chain (routes/tasks.js):
`type` must be in the fixed list of the four registered task types
(`isIn([...])`), `data` must be an object, and `priority`, when present,
must be an integer between 1 and 10. -/
def validateTask (b : TaskRequestBody) : Bool :=
  decide (b.type ∈ registeredTaskTypes) &&
  b.dataIsObject &&
  (match b.priority with
   | none => true
   | some p => decide (1 ≤ p ∧ p ≤ 10))

/-- Embedding of the POST /api/tasks route: on validation failure respond
400 with the errors and never enqueue; otherwise destructure
`{ type, data, priority = 5 }`, call `addTaskToQueue` with
`userId: req.body.userId || "anonymous"`, and respond 201 with the created
job record. -/
def postTask (b : TaskRequestBody) (seq : Nat) : Except String EnqueuedJob :=
  if validateTask b then
    .ok (addTaskToQueue
      { type := b.type
        priority := some (b.priority.getD 5)
        userId := some (jsOrDefault b.userId "anonymous") } seq)
  else
    .error "ValidationError"

/-! ## Claim C6 -/

/-- C6 counterexample: a submission with the non-empty type "cleanup" and
priority 5 (inside [1,10]) is rejected with a validation error and never
reaches the queue — the validator requires membership in the fixed
four-type list, not merely a non-empty type. -/
theorem C6_nonempty_type_rejected :
    "cleanup" ≠ "" ∧ (1 : Int) ≤ 5 ∧ (5 : Int) ≤ 10 ∧
    postTask { type := "cleanup", dataIsObject := true, priority := some 5, userId := none } 0 =
      .error "ValidationError" :=
  ⟨by decide, by decide, by decide, rfl⟩

/-- C6 (amended): a submission is admitted to the queue (and the caller
receives the created job record) precisely when its type is one of the four
registered task types, its data is an object, and its priority, when
present, lies in [1,10]; otherwise it fails with a validation error and
never reaches the queue. -/
theorem C6_validation_characterization (b : TaskRequestBody) (seq : Nat) :
    ((∃ j, postTask b seq = .ok j) ↔
      (b.type ∈ registeredTaskTypes ∧ b.dataIsObject = true ∧
        ∀ p, b.priority = some p → 1 ≤ p ∧ p ≤ 10)) ∧
    (validateTask b = false → postTask b seq = .error "ValidationError") := by
  constructor
  · unfold postTask
    by_cases hv : validateTask b
    · simp only [hv, if_true]
      constructor
      · intro _
        unfold validateTask at hv
        simp only [Bool.and_eq_true, decide_eq_true_eq] at hv
        refine ⟨hv.1.1, hv.1.2, ?_⟩
        intro p hp
        rw [hp] at hv
        exact of_decide_eq_true hv.2
      · intro _
        exact ⟨_, rfl⟩
    · simp only [hv, if_false]
      constructor
      · rintro ⟨j, hj⟩
        exact absurd hj (by simp)
      · intro hcond
        exfalso
        apply hv
        unfold validateTask
        simp only [Bool.and_eq_true, decide_eq_true_eq]
        refine ⟨⟨hcond.1, hcond.2.1⟩, ?_⟩
        cases hp : b.priority with
        | none => rfl
        | some p => exact decide_eq_true (hcond.2.2 p hp)
  · intro hv
    simp [postTask, hv]

/-- C6 witness: an email task with priority 5 is admitted to the queue. -/
theorem C6_validation_witness :
    ∃ j, postTask
      { type := "email", dataIsObject := true, priority := some 5, userId := none } 0 =
        .ok j :=
  (C6_validation_characterization
      { type := "email", dataIsObject := true, priority := some 5, userId := none } 0).1.2
    (by decide)

/-! ## Claim C10 -/

/-- C10: a task submitted through POST /api/tasks without a userId is stored
with the sentinel "anonymous", and consequently the completion and failure
notifications for it are broadcast to every connected client, never targeted
at a user room. -/
theorem C10_missing_userId_broadcast (b : TaskRequestBody) (seq : Nat) (j : EnqueuedJob)
    (hu : b.userId = none) (hj : postTask b seq = .ok j) :
    j.userId = some "anonymous" ∧
    ∀ (id : String) (att maxA : Nat) (e : String),
      handleTaskCompleted (toEventData (workerCompletedEvent
        { id := id, name := j.name, userId := j.userId
          attemptsMade := att, maxAttempts := maxA })) =
        [ { target := .all, channel := "notification" } ] ∧
      handleTaskFailed (toEventData (workerFailedEvent
        { id := id, name := j.name, userId := j.userId
          attemptsMade := att, maxAttempts := maxA } e)) =
        [ { target := .all, channel := "notification" } ] := by
  have huid : j.userId = some "anonymous" := by
    unfold postTask at hj
    by_cases hv : validateTask b
    · simp only [hv, if_true, Except.ok.injEq] at hj
      subst hj
      simp [addTaskToQueue, hu, jsOrDefault]
    · simp [hv] at hj
  refine ⟨huid, ?_⟩
  intro id att maxA e
  constructor <;>
    simp [handleTaskCompleted, handleTaskFailed, toEventData,
      workerCompletedEvent, workerFailedEvent, userRoomTarget, huid]

/-- C10 witness: the concrete submission of an email task with no userId is
enqueued with userId "anonymous" and its completion event is broadcast. -/
theorem C10_missing_userId_witness :
    (addTaskToQueue { type := "email", priority := some 5, userId := some "anonymous" } 0).userId
      = some "anonymous" ∧
    handleTaskCompleted (toEventData (workerCompletedEvent
      { id := "job-1"
        name := (addTaskToQueue
          { type := "email", priority := some 5, userId := some "anonymous" } 0).name
        userId := (addTaskToQueue
          { type := "email", priority := some 5, userId := some "anonymous" } 0).userId
        attemptsMade := 0, maxAttempts := 3 })) =
      [ { target := .all, channel := "notification" } ] :=
  ⟨(C10_missing_userId_broadcast
      { type := "email", dataIsObject := true, priority := none, userId := none } 0
      (addTaskToQueue { type := "email", priority := some 5, userId := some "anonymous" } 0)
      rfl rfl).1,
   ((C10_missing_userId_broadcast
      { type := "email", dataIsObject := true, priority := none, userId := none } 0
      (addTaskToQueue { type := "email", priority := some 5, userId := some "anonymous" } 0)
      rfl rfl).2 "job-1" 0 3 "boom").1⟩

/-! ## Progress reporting (worker.js and taskProcessor.js) -/

/-- Progress values reported by the registered handlers during one
successful run (taskProcessor.js).  The report handler reports the fixed
sequence 20, 40, 60, 80.  The dataProcessing handler reports, for each
10-record chunk starting at i = 10k with i < recordCount, the value
min(floor((i / recordCount) * 80) + 10, 90).  The imageProcessing handler
reports floor(((k + 1) / numOperations) * 80) + 10 after its k-th
operation.  The email handler (and the generic default branch) reports no
intermediate progress. -/
def handlerProgressReports (name : String) (recordCount numOperations : Nat) : List Nat :=
  if name = "email" then []
  else if name = "report" then [20, 40, 60, 80]
  else if name = "dataProcessing" then
    (List.range ((recordCount + 9) / 10)).map
      (fun k => min (800 * k / recordCount + 10) 90)
  else if name = "imageProcessing" then
    (List.range numOperations).map
      (fun k => (k + 1) * 80 / numOperations + 10)
  else []

/-- Progress values reported during one successful attempt, in order
(worker.js lines 57-107): 10 on entry, then the handler reports, then 90,
then 100.  The worker never reports 0, and BullMQ keeps the stored progress
value across attempts, so nothing resets progress to 0 when a retry
starts. -/
def attemptProgress (name : String) (recordCount numOperations : Nat) : List Nat :=
  10 :: (handlerProgressReports name recordCount numOperations ++ [90, 100])

/-- A monotone map over `List.range` is a non-decreasing chain. -/
theorem chain_le_map_range {f : Nat → Nat} (hf : Monotone f) (m : Nat) :
    List.Chain' (· ≤ ·) ((List.range m).map f) := by
  rw [List.chain'_iff_pairwise]
  exact (List.pairwise_lt_range m).map f (fun a b hab => hf hab.le)

/-- Every handler report sequence is non-decreasing with all values in
[10, 90]. -/
theorem handlerProgressReports_sound (name : String) (recordCount numOperations : Nat) :
    List.Chain' (· ≤ ·) (handlerProgressReports name recordCount numOperations) ∧
    ∀ x ∈ handlerProgressReports name recordCount numOperations, 10 ≤ x ∧ x ≤ 90 := by
  unfold handlerProgressReports
  split
  · simp
  split
  · exact ⟨by simp [List.chain'_cons], by decide⟩
  split
  · constructor
    · apply chain_le_map_range
      intro a b hab
      exact min_le_min
        (Nat.add_le_add_right (Nat.div_le_div_right (Nat.mul_le_mul_left 800 hab)) 10)
        le_rfl
    · intro x hx
      simp only [List.mem_map, List.mem_range] at hx
      obtain ⟨k, _, rfl⟩ := hx
      exact ⟨le_min (Nat.le_add_left 10 _) (by norm_num), min_le_right _ _⟩
  split
  · constructor
    · apply chain_le_map_range
      intro a b hab
      exact Nat.add_le_add_right
        (Nat.div_le_div_right (Nat.mul_le_mul_right 80 (by omega))) 10
    · intro x hx
      simp only [List.mem_map, List.mem_range] at hx
      obtain ⟨k, hk, rfl⟩ := hx
      refine ⟨Nat.le_add_left 10 _, ?_⟩
      have h1 : (k + 1) * 80 / numOperations ≤ numOperations * 80 / numOperations :=
        Nat.div_le_div_right (Nat.mul_le_mul_right 80 (by omega))
      have h2 : numOperations * 80 / numOperations = 80 :=
        Nat.mul_div_cancel_left 80 (by omega)
      omega
  · simp

/-- Prefixing a value that bounds a sorted-within-[·,90] list from below and
appending the final 90, 100 reports keeps the chain non-decreasing. -/
theorem attemptProgress_mono_aux :
    ∀ (h : List Nat) (a : Nat), a ≤ 90 → (∀ x ∈ h, a ≤ x ∧ x ≤ 90) →
      List.Pairwise (· ≤ ·) h → List.Chain' (· ≤ ·) (a :: (h ++ [90, 100]))
  | [], a, ha, _, _ => List.Chain'.cons ha (by simp [List.chain'_cons])
  | b :: t, a, _, hx, hp => by
    rw [List.pairwise_cons] at hp
    have hb := hx b (by simp)
    refine List.Chain'.cons hb.1 ?_
    exact attemptProgress_mono_aux t b hb.2
      (fun x hxt => ⟨hp.1 x hxt, (hx x (by simp [hxt])).2⟩) hp.2

/-! ## Claim C9 -/

/-- C9 counterexample: the claim states progress is reset to 0 at the start
of each attempt before any further progress is reported; in fact the first
value reported in an attempt is 10, and 0 is never reported at all (here for
a dataProcessing job over 100 records). -/
theorem C9_no_reset_to_zero :
    (attemptProgress "dataProcessing" 100 3).head? = some 10 ∧
    0 ∉ attemptProgress "dataProcessing" 100 3 := by
  decide

/-- C9 (amended): within any single successful attempt, for every task type
and handler parameters, the sequence of reported progress values is
monotonically non-decreasing and stays within 10-100 (hence within 0-100);
the first value reported in an attempt is 10, not a reset to 0. -/
theorem C9_progress_monotone (name : String) (recordCount numOperations : Nat) :
    List.Chain' (· ≤ ·) (attemptProgress name recordCount numOperations) ∧
    (∀ x ∈ attemptProgress name recordCount numOperations, 10 ≤ x ∧ x ≤ 100) ∧
    (attemptProgress name recordCount numOperations).head? = some 10 := by
  obtain ⟨hchain, hb⟩ := handlerProgressReports_sound name recordCount numOperations
  refine ⟨?_, ?_, rfl⟩
  · exact attemptProgress_mono_aux _ 10 (by norm_num)
      (fun x hx => ⟨(hb x hx).1, (hb x hx).2⟩)
      (List.chain'_iff_pairwise.mp hchain)
  · intro x hx
    simp only [attemptProgress, List.mem_cons, List.mem_append] at hx
    rcases hx with rfl | hx | hx
    · omega
    · have := hb x hx
      omega
    · simp only [List.mem_cons, List.not_mem_nil, or_false] at hx
      rcases hx with rfl | rfl <;> omega

/-- C9 witness: for a concrete report attempt the reported sequence is a
non-decreasing chain whose first value is 10. -/
theorem C9_progress_monotone_witness :
    List.Chain' (· ≤ ·) (attemptProgress "report" 100 3) ∧
    (attemptProgress "report" 100 3).head? = some 10 :=
  ⟨(C9_progress_monotone "report" 100 3).1, (C9_progress_monotone "report" 100 3).2.2⟩

end Platform
